import Mathlib

/-!
Verification of the logtick agent's concurrent collection-and-aggregation
runtime, shallowly embedded from the Go sources.

The embedding covers:
* the per-collector tick loop of `main` (main.go, collector goroutine),
  with the shared map `currentCollectedData`, the consolidated
  `AgentReport`, and the `latestAgentReport` publication;
* `HTTPSender.Send` (sender/http_sender.go);
* the `WebSocketLogSender` lock discipline for `connect` / `disconnect` /
  `SendLog` (sender/http_sender.go, websocket part);
* the `/api/current_metrics` handler (main.go);
* collector construction and the active-collector set of `main`
  (main.go, mysql/nginx collectors);
* `NginxCollector.Collect` stub_status parsing (nginx collector);
* a discrete-time model of the collector goroutine's
  `select \x7bticker.C, ctx.Done()\x7d` loop, the shared cancellation
  context and `wg.Wait`.

External effects (HTTP transport, the websocket dial and write, MySQL,
clocks) enter as explicit environment parameters, exactly where the Go
code consults them.
-/

/-! ## Metric payloads and the shared per-source map

`currentCollectedData` in main.go is a `map[string]interface\x7b\x7d`; the
collector loop stores whatever `Collect()` returned and the report builder
recovers the payload by a dynamic type assertion
(`.(*collector.SystemMetrics)` etc.).  The payload contents are opaque to
the loop, so each variant carries an abstract payload identifier. -/

inductive MetricData where
  /-- A `*collector.SystemMetrics` value, payload abstracted. -/
  | systemM (v : Nat)
  /-- A `*mysql.MySQLMetrics` value, payload abstracted. -/
  | mysqlM (v : Nat)
  /-- A `*nginx.NginxMetrics` value, payload abstracted. -/
  | nginxM (v : Nat)
deriving DecidableEq, Repr

/-- The shared map `currentCollectedData : map[string]interface\x7b\x7d`. -/
def StrMap : Type := String → Option MetricData

/-- Agent identity fixed at startup (`cfg.AgentID`, `cfg.AgentName`). -/
structure AgentCfg where
  agentID : String
  agentName : String
deriving DecidableEq, Repr

/-- `AgentReport` from main.go: agent identity, capture timestamp, and one
optional (`omitempty`) field per collector type. -/
structure AgentReport where
  agentID : String
  agentName : String
  timestamp : Nat
  system : Option Nat
  mysql : Option Nat
  nginx : Option Nat
deriving DecidableEq, Repr

/-- The report-construction block of the collector goroutine
(main.go: build `fullReport`, then the three type-asserted lookups of
`currentCollectedData` under `uiDataMutex.RLock`). -/
def buildFullReport (cfg : AgentCfg) (now : Nat) (data : StrMap) : AgentReport :=
  { agentID := cfg.agentID
    agentName := cfg.agentName
    timestamp := now
    system := match data "system" with
      | some (MetricData.systemM v) => some v
      | _ => none
    mysql := match data "mysql" with
      | some (MetricData.mysqlM v) => some v
      | _ => none
    nginx := match data "nginx" with
      | some (MetricData.nginxM v) => some v
      | _ => none }

/-- The mutable state the collector goroutines share in main.go:
`currentCollectedData` (guarded by `uiDataMutex`) and the global
`latestAgentReport` (guarded by `mu`). -/
structure LoopState where
  currentCollectedData : StrMap
  latestAgentReport : Option AgentReport

/-- One `ticker.C` iteration of the collector goroutine in main.go for the
collector named `cname`.  `collectRes` is the outcome of `c.Collect()`,
`now` the wall clock read for the report timestamp.  Returns the updated
shared state and the report handed to `httpSender.Send` (none when the
tick hit the `continue` on a collection error). -/
def collectorTick (cfg : AgentCfg) (cname : String)
    (collectRes : Except String MetricData) (now : Nat)
    (st : LoopState) : LoopState × Option AgentReport :=
  match collectRes with
  | Except.error _ => (st, none)
  | Except.ok m =>
    let data : StrMap :=
      fun k => if k = cname then some m else st.currentCollectedData k
    let fullReport := buildFullReport cfg now data
    ({ currentCollectedData := data, latestAgentReport := some fullReport },
      some fullReport)

/-- A sequence of ticks of one collector goroutine: each entry is the
`Collect()` outcome and the clock reading of one `ticker.C` firing.
Returns the final shared state and the reports delivered, in order. -/
def runTicks (cfg : AgentCfg) (cname : String)
    (ticks : List (Except String MetricData × Nat))
    (st : LoopState) : LoopState × List AgentReport :=
  match ticks with
  | [] => (st, [])
  | (res, now) :: rest =>
    let (st1, rep) := collectorTick cfg cname res now st
    let (st2, reps) := runTicks cfg cname rest st1
    (st2, (rep.toList) ++ reps)

/-! ## The delivery sink: HTTPSender.Send (sender/http_sender.go) -/

/-- Outcome of `json.Marshal(data)`. -/
inductive MarshalR where
  | ok (jsonBody : String)
  | err
deriving DecidableEq, Repr

/-- Outcome of `s.client.Do(req)`: a transport error or a response with a
status code. -/
inductive DoR where
  | transportErr
  | resp (status : Nat)
deriving DecidableEq, Repr

/-- The external effects one `Send` call consults, in program order. -/
structure SendEnv where
  marshal : MarshalR
  newRequestOk : Bool
  doResult : DoR
deriving DecidableEq, Repr

/-- `HTTPSender` struct: an HTTP client with a 10 second timeout and the
target URL. -/
structure HTTPSender where
  timeoutSeconds : Nat
  url : String
deriving DecidableEq, Repr

/-- `NewHTTPSender` (sender/http_sender.go). -/
def NewHTTPSender (url : String) : HTTPSender :=
  { timeoutSeconds := 10, url := url }

/-- `HTTPSender.Send`: marshal, build the request, perform exactly one
`client.Do`, and classify the response.  Returns the Go error value
(`none` = nil) together with the number of HTTP requests issued. -/
def HTTPSender.Send (_s : HTTPSender) (env : SendEnv) : Option String × Nat :=
  match env.marshal with
  | MarshalR.err => (some "failed to marshal data", 0)
  | MarshalR.ok _ =>
    if env.newRequestOk then
      match env.doResult with
      | DoR.transportErr => (some "failed to send request", 1)
      | DoR.resp code =>
        if 200 ≤ code ∧ code < 300 then (none, 1)
        else (some "failed to send request: non-2xx status", 1)
    else (some "failed to create request", 0)

/-! ## The /api/current_metrics handler (main.go) -/

/-- A JSON value, as far as the handler's two possible bodies need. -/
inductive Json where
  | str (s : String)
  | num (n : Nat)
  | obj (fields : List (String × Json))

/-- JSON serialization of `AgentReport` under Go's `encoding/json`:
fields in declaration order, the three metric pointers carry `omitempty`
and vanish when nil. -/
def AgentReport.toJson (r : AgentReport) : Json :=
  Json.obj
    ([("agent_id", Json.str r.agentID),
      ("agent_name", Json.str r.agentName),
      ("timestamp", Json.num r.timestamp)]
     ++ (match r.system with
         | some v => [("system_metrics", Json.num v)]
         | none => [])
     ++ (match r.mysql with
         | some v => [("mysql_metrics", Json.num v)]
         | none => [])
     ++ (match r.nginx with
         | some v => [("nginx_metrics", Json.num v)]
         | none => []))

/-- The body written when no report has been published yet. -/
def noDataResponse : Json :=
  Json.obj [("error", Json.str "No metrics available yet.")]

/-- The `/api/current_metrics` handler body (main.go): read
`latestAgentReport` under `mu.RLock`, answer the no-data marker when it is
nil, otherwise encode the report. -/
def currentMetricsHandler (latest : Option AgentReport) : Json :=
  match latest with
  | none => noDataResponse
  | some r => r.toJson

/-! ## NginxCollector.Collect stub_status parsing (nginx collector) -/

/-- Go `strconv.ParseUint(s, 10, 64)` with the error discarded by `_`:
a string that is not a nonempty run of decimal digits yields 0 (syntax
error case), an in-range numeral yields its value, and an overflowing
numeral yields the clamped maximum (Go returns MaxUint64 together with
the ignored range error). -/
def goParseUint64 (s : String) : Nat :=
  if s.toList ≠ [] ∧ s.toList.all Char.isDigit then
    min (s.toList.foldl (fun acc c => acc * 10 + (c.toNat - 48)) 0) (2 ^ 64 - 1)
  else 0

/-- Go `strings.Split(s, sep)` for a one-character separator, over the
character list. -/
def splitOnChar (sep : Char) : List Char → List (List Char)
  | [] => [[]]
  | c :: cs =>
    let r := splitOnChar sep cs
    if c = sep then [] :: r
    else
      match r with
      | [] => [[c]]
      | g :: gs => (c :: g) :: gs

/-- Go `strings.Split(body, "\n")`. -/
def goSplitLines (s : String) : List String :=
  (splitOnChar (Char.ofNat 10) s.toList).map (fun cs => String.mk cs)

/-- Helper for `goFields`: accumulate the current word (reversed) while
scanning. -/
def goFieldsAux : List Char → List Char → List String
  | [], acc => if acc.isEmpty then [] else [String.mk acc.reverse]
  | c :: cs, acc =>
    if c.isWhitespace then
      if acc.isEmpty then goFieldsAux cs []
      else String.mk acc.reverse :: goFieldsAux cs []
    else goFieldsAux cs (c :: acc)

/-- Go `strings.Fields`: split on whitespace runs, dropping empties. -/
def goFields (s : String) : List String :=
  goFieldsAux s.toList []

/-- Go `strings.TrimSpace`. -/
def goTrimSpace (s : String) : String :=
  String.mk
    (((s.toList.dropWhile Char.isWhitespace).reverse.dropWhile
        Char.isWhitespace).reverse)

/-- Go `strings.TrimPrefix`: remove the leading prefix when present,
otherwise return the string unchanged. -/
def goTrimPrefix (s p : String) : String :=
  if p.toList.isPrefixOf s.toList then String.mk (s.toList.drop p.toList.length)
  else s

/-- `NginxMetrics` (nginx collector). -/
structure NginxMetrics where
  activeConnections : Nat
  accepts : Nat
  handled : Nat
  requests : Nat
  reading : Nat
  writing : Nat
  waiting : Nat
deriving DecidableEq, Repr

/-- Outcome of the parsing half of `NginxCollector.Collect`. -/
inductive NginxOutcome where
  /-- an error value was returned -/
  | err (msg : String)
  /-- a Go runtime panic: index out of range -/
  | panicked
  /-- metrics returned with a nil error -/
  | ok (m : NginxMetrics)
deriving DecidableEq, Repr

/-- The body-parsing section of `NginxCollector.Collect`: split the
stub_status body on newlines, reject fewer than 3 lines, read line 0
(Active connections), line 2 (accepts handled requests), then index
`lines[3]` (Reading/Writing/Waiting) — an access whose bound the guard
did not establish. -/
def parseStubStatus (body : String) : NginxOutcome :=
  let lines := goSplitLines body
  if lines.length < 3 then
    NginxOutcome.err "salida de stub_status de Nginx inesperada"
  else
    let line0 := (lines.get? 0).getD ""
    let activeConnections :=
      if 0 < line0.length then
        goParseUint64 (goTrimSpace (goTrimPrefix line0 "Active connections:"))
      else 0
    let line2 := (lines.get? 2).getD ""
    let ahr :=
      if 0 < line2.length then
        let fields := goFields line2
        if 3 ≤ fields.length then
          (goParseUint64 ((fields.get? 0).getD ""),
           goParseUint64 ((fields.get? 1).getD ""),
           goParseUint64 ((fields.get? 2).getD ""))
        else (0, 0, 0)
      else (0, 0, 0)
    match lines.get? 3 with
    | none => NginxOutcome.panicked
    | some line3 =>
      let rww :=
        if 0 < line3.length then
          let parts := goFields line3
          if 6 ≤ parts.length then
            (goParseUint64 ((parts.get? 1).getD ""),
             goParseUint64 ((parts.get? 3).getD ""),
             goParseUint64 ((parts.get? 5).getD ""))
          else (0, 0, 0)
        else (0, 0, 0)
      NginxOutcome.ok
        { activeConnections := activeConnections
          accepts := ahr.1
          handled := ahr.2.1
          requests := ahr.2.2
          reading := rww.1
          writing := rww.2.1
          waiting := rww.2.2 }

/-! ## WebSocketLogSender lock discipline (sender/http_sender.go)

The sender guards its single connection handle `conn` with one
non-reentrant `sync.Mutex` `mu`.  We record who holds the mutex; a
goroutine that calls `Lock()` while the mutex is held waits until the
holder releases it, and waits forever if the holder is itself. -/

/-- The goroutines that touch the sender's mutex. -/
inductive WsOwner where
  /-- a goroutine inside `SendLog` -/
  | emitter
  /-- the `connectLoop` goroutine inside `connect` -/
  | dialer
deriving DecidableEq, Repr

/-- Sender state: current mutex holder and the connection handle
(`conn == nil` is the DISCONNECTED state). -/
structure WsState where
  muOwner : Option WsOwner
  conn : Option Nat
deriving DecidableEq, Repr

/-- Outcome of `disconnect()` when entered with the given state:
`s.mu.Lock()` waits while anyone holds the mutex; once acquired, the
handle is closed and cleared and the mutex released. -/
inductive DisconnectOutcome where
  /-- `Lock()` cannot be acquired: the call is blocked -/
  | blocked
  /-- the connection is closed and cleared, mutex released -/
  | done (final : WsState)
deriving DecidableEq, Repr

/-- `WebSocketLogSender.disconnect` (sender/http_sender.go). -/
def disconnect (s : WsState) : DisconnectOutcome :=
  match s.muOwner with
  | some _ => DisconnectOutcome.blocked
  | none => DisconnectOutcome.done { muOwner := none, conn := none }

/-- Outcome of one `SendLog` call. -/
inductive EmitOutcome where
  /-- the entry `s.mu.Lock()` found the mutex held by another goroutine:
  the call waits for that goroutine to release it -/
  | blockedOnEntry
  /-- the call re-acquired a mutex its own goroutine holds and therefore
  never proceeds nor returns; `stuck` is the state it hangs in -/
  | deadlocked (stuck : WsState)
  /-- the call returned; `sent` tells whether the line went out -/
  | returned (sent : Bool) (final : WsState)
deriving DecidableEq, Repr

/-- Whether a `SendLog` call came back to its caller at all. -/
def EmitOutcome.cameBack : EmitOutcome → Bool
  | EmitOutcome.returned _ _ => true
  | _ => false

/-- `WebSocketLogSender.SendLog` (sender/http_sender.go): lock `mu`
(deferred unlock), drop the line when `conn == nil`, marshal, write; on a
write error call `disconnect()` — which re-locks the mutex this goroutine
already holds.  `marshalFails` and `writeFails` are the outcomes of
`json.Marshal` and `conn.WriteMessage`. -/
def sendLog (marshalFails writeFails : Bool) (s : WsState) : EmitOutcome :=
  match s.muOwner with
  | some WsOwner.emitter => EmitOutcome.deadlocked s
  | some WsOwner.dialer => EmitOutcome.blockedOnEntry
  | none =>
    let s1 : WsState := { s with muOwner := some WsOwner.emitter }
    match s1.conn with
    | none => EmitOutcome.returned false { s1 with muOwner := none }
    | some _ =>
      if marshalFails then
        EmitOutcome.returned false { s1 with muOwner := none }
      else if writeFails then
        match disconnect s1 with
        | DisconnectOutcome.blocked => EmitOutcome.deadlocked s1
        | DisconnectOutcome.done s2 =>
          EmitOutcome.returned false { s2 with muOwner := none }
      else
        EmitOutcome.returned true { s1 with muOwner := none }

/-- The first half of `WebSocketLogSender.connect`
(sender/http_sender.go), up to the blocking
`websocket.DefaultDialer.Dial` call: lock `mu` (deferred unlock), return
early when already connected or the URL does not parse.  Result: the
state at the dial point and whether the dial was reached — when it was,
the mutex is still held by the dialer for the whole dial. -/
def connectPre (urlOk : Bool) (s : WsState) : WsState × Bool :=
  match s.muOwner with
  | some _ => (s, false)
  | none =>
    let s1 : WsState := { s with muOwner := some WsOwner.dialer }
    match s1.conn with
    | some _ => ({ s1 with muOwner := none }, false)
    | none =>
      if urlOk then (s1, true)
      else ({ s1 with muOwner := none }, false)

/-! ## Collector construction and the active set (main.go) -/

/-- `config.MySQLConfig`. -/
structure MySQLConfig where
  enabled : Bool
  dsn : String
  collectionIntervalSeconds : Nat
deriving DecidableEq, Repr

/-- `config.NginxConfig`. -/
structure NginxConfig where
  enabled : Bool
  stubStatusURL : String
  collectionIntervalSeconds : Nat
deriving DecidableEq, Repr

/-- The slice of `config.Config` that collector construction reads. -/
structure Config where
  agentID : String
  agentName : String
  intervalSeconds : Nat
  mysql : Option MySQLConfig
  nginx : Option NginxConfig
deriving DecidableEq, Repr

/-- A constructed collector, through the `collector.Collector` interface:
`Name()` and `GetInterval()` (seconds). -/
structure Collector where
  name : String
  intervalS : Nat
deriving DecidableEq, Repr

/-- Outcomes of the external calls inside `NewMySQLCollector`:
`sql.Open` and `db.PingContext`. -/
structure MySQLEnv where
  openErr : Option String
  pingErr : Option String
deriving DecidableEq, Repr

/-- `NewMySQLCollector` (mysql collector): reject an empty DSN, open,
ping with a 5s timeout; any failure aborts construction with an error. -/
def NewMySQLCollector (cfg : MySQLConfig) (env : MySQLEnv) :
    Except String Collector :=
  if cfg.dsn = "" then Except.error "DSN de MySQL no puede estar vacío"
  else
    match env.openErr with
    | some e => Except.error e
    | none =>
      match env.pingErr with
      | some e => Except.error e
      | none =>
        Except.ok { name := "mysql", intervalS := cfg.collectionIntervalSeconds }

/-- `NewNginxCollector` (nginx collector): reject an empty stub_status
URL, otherwise construct. -/
def NewNginxCollector (cfg : NginxConfig) : Except String Collector :=
  if cfg.stubStatusURL = "" then
    Except.error "URL de stub_status de Nginx no puede estar vacía"
  else
    Except.ok { name := "nginx", intervalS := cfg.collectionIntervalSeconds }

/-- `NewSystemCollector` (system collector): always constructed, using the
global interval. -/
def NewSystemCollector (cfg : Config) : Collector :=
  { name := "system", intervalS := cfg.intervalSeconds }

/-- Step 5 of `main` (main.go): the system collector is always appended;
MySQL and Nginx are appended only when configured, enabled, and their
constructor succeeded — a failing constructor is logged and the collector
omitted. -/
def initActiveCollectors (cfg : Config) (env : MySQLEnv) : List Collector :=
  let base := [NewSystemCollector cfg]
  let withMySQL := base ++
    (match cfg.mysql with
     | some m =>
       if m.enabled then
         match NewMySQLCollector m env with
         | Except.ok c => [c]
         | Except.error _ => []
       else []
     | none => [])
  withMySQL ++
    (match cfg.nginx with
     | some n =>
       if n.enabled then
         match NewNginxCollector n with
         | Except.ok c => [c]
         | Except.error _ => []
       else []
     | none => [])

/-- Step 6 of `main` (main.go): the `for _, col := range activeCollectors`
loop performs one `wg.Add(1)` and launches one collector goroutine per
element of the active set; the spawned tasks are identified by collector
name. -/
def spawnCollectorTasks (cols : List Collector) : List String :=
  cols.map Collector.name

/-! ## Lock-region semantics of the shared map (main.go, step 6)

The collector goroutine touches `currentCollectedData` in two critical
sections per tick: the store `currentCollectedData[c.Name()] = ...` under
`uiDataMutex.Lock()`, and the three type-asserted lookups that build the
report under `uiDataMutex.RLock()`.  The mutex makes each region atomic
with respect to the others; a schedule is an interleaving of the tasks'
region sequences. -/

/-- One critical section on the shared map. -/
inductive MapOp where
  /-- the exclusive-lock store `currentCollectedData[name] = v` -/
  | write (name : String) (v : MetricData)
  /-- the read-lock full-map read building task `tid`'s report -/
  | readSnap (tid : Nat)

/-- Shared map plus each task's recorded snapshot. -/
structure ExecSt where
  data : StrMap
  snaps : Nat → Option StrMap

/-- The empty shared map (`make(map[string]interface\x7b\x7d)`). -/
def emptyMap : StrMap := fun _ => none

/-- Initial execution state: empty map, no snapshots taken. -/
def initExec : ExecSt :=
  { data := emptyMap, snaps := fun _ => none }

/-- Effect of one critical section. -/
def applyOp (s : ExecSt) : MapOp → ExecSt
  | MapOp.write n v =>
    { s with data := fun k => if k = n then some v else s.data k }
  | MapOp.readSnap tid =>
    { s with snaps := fun j => if j = tid then some s.data else s.snaps j }

/-- Run a schedule of critical sections. -/
def execOps (ops : List MapOp) (s : ExecSt) : ExecSt :=
  ops.foldl applyOp s

/-- The two critical sections one successful tick of the collector named
`name` (task id `tid`) performs on the shared map, in program order. -/
def taskOps (tid : Nat) (name : String) (v : MetricData) : List MapOp :=
  [MapOp.write name v, MapOp.readSnap tid]

/-- `Interleave xs ys zs`: `zs` is an interleaving of `xs` and `ys`
(each list's internal order preserved) — the possible schedules of two
concurrently running collector goroutines. -/
inductive Interleave : List MapOp → List MapOp → List MapOp → Prop where
  | nil : Interleave [] [] []
  | left {x xs ys zs} : Interleave xs ys zs → Interleave (x :: xs) ys (x :: zs)
  | right {y xs ys zs} : Interleave xs ys zs → Interleave xs (y :: ys) (y :: zs)

/-! ## Discrete-time model of the collector goroutine's select loop

One scheduler step is one pass through the goroutine's
`select \x7bcase <-ticker.C, case <-ctx.Done()\x7d` (main.go, step 6),
with the collection body treated as instantaneous.  `time.NewTicker`
fires first after one full period and buffers at most one pending tick;
`ctx.Done()` is ready from the cancellation time on.  When both channels
are ready, Go's `select` picks either case: the adversary `adv` decides.
When neither is ready the goroutine stays blocked in the `select`. -/

/-- Per-task scheduling parameters: the adapter's tick period (in
scheduler steps) and the time the shared context is cancelled. -/
structure TaskParams where
  period : Nat
  cancelAt : Nat
deriving DecidableEq, Repr

/-- The case Go's `select` commits to when both are ready. -/
inductive SelChoice where
  | tick
  | done
deriving DecidableEq, Repr

/-- Observable task state: whether a tick is buffered in `ticker.C`,
whether the goroutine has returned, and the times at which it invoked
`c.Collect()`. -/
structure TaskRun where
  pending : Bool
  exited : Bool
  samples : List Nat
deriving DecidableEq, Repr

/-- Whether `ticker.C` fires at time `t`: the first tick comes one full
period after `time.NewTicker`, then every period. -/
def tickFires (period t : Nat) : Bool :=
  decide (0 < t) && decide (t % period = 0)

/-- One scheduler step at time `t`: deliver a firing tick into the
buffer, then resolve the goroutine's `select`. -/
def taskStep (p : TaskParams) (adv : Nat → SelChoice) (t : Nat)
    (s : TaskRun) : TaskRun :=
  if s.exited then s
  else
    let pending := s.pending || tickFires p.period t
    let cancelled := decide (p.cancelAt ≤ t)
    if pending && cancelled then
      match adv t with
      | SelChoice.tick => { pending := false, exited := false, samples := t :: s.samples }
      | SelChoice.done => { pending := pending, exited := true, samples := s.samples }
    else if pending then
      { pending := false, exited := false, samples := t :: s.samples }
    else if cancelled then
      { pending := pending, exited := true, samples := s.samples }
    else
      { pending := pending, exited := false, samples := s.samples }

/-- The task state just before the step at time `t` (steps 0..t-1 done). -/
def taskRun (p : TaskParams) (adv : Nat → SelChoice) : Nat → TaskRun
  | 0 => { pending := false, exited := false, samples := [] }
  | t + 1 => taskStep p adv t (taskRun p adv t)

/-- `wg.Wait()` in `main` returns at time `t` exactly when every
collector goroutine spawned by the orchestrator has returned
(each goroutine's `defer wg.Done()`). -/
def wgWaitReturned (tasks : List (TaskParams × (Nat → SelChoice))) (t : Nat) : Prop :=
  ∀ pa ∈ tasks, (taskRun pa.1 pa.2 t).exited = true

/-! ## Claim theorems -/

/-- C2: a tick on which `Collect()` returns an error leaves the shared
state (the entry under the adapter's name included) exactly as it was,
builds and delivers no consolidated report, and the loop simply proceeds
to the remaining ticks with no retry. -/
theorem C2_failed_sample_is_a_no_op :
    ∀ (cfg : AgentCfg) (cname : String) (e : String) (now : Nat)
      (st : LoopState) (rest : List (Except String MetricData × Nat)),
      collectorTick cfg cname (Except.error e) now st = (st, none) ∧
      (collectorTick cfg cname (Except.error e) now st).1.currentCollectedData
          cname = st.currentCollectedData cname ∧
      runTicks cfg cname ((Except.error e, now) :: rest) st =
        runTicks cfg cname rest st := by
  intro cfg cname e now st rest
  refine ⟨rfl, rfl, ?_⟩
  simp [runTicks, collectorTick]

/-- C6: `HTTPSender.Send` serializes the report, issues at most one POST
(exactly one whenever serialization and request construction succeed,
none otherwise — hence no retry), uses a client with a positive bounded
timeout, and returns a nil error exactly when the single response had a
2xx status; marshal errors, request-construction errors, transport
errors and non-2xx statuses all come back as a non-nil error. -/
theorem C6_send_one_shot_classification :
    ∀ (url : String) (env : SendEnv),
      (((NewHTTPSender url).Send env).1 = none ↔
        ((∃ body, env.marshal = MarshalR.ok body) ∧ env.newRequestOk = true ∧
         ∃ code, env.doResult = DoR.resp code ∧ 200 ≤ code ∧ code < 300)) ∧
      ((NewHTTPSender url).Send env).2 =
        (if env.marshal ≠ MarshalR.err ∧ env.newRequestOk = true then 1 else 0) ∧
      0 < (NewHTTPSender url).timeoutSeconds := by
  intro url env
  obtain ⟨m, nr, d⟩ := env
  refine ⟨?_, ?_, by simp [NewHTTPSender]⟩
  · cases m with
    | err => simp [HTTPSender.Send]
    | ok body =>
      cases nr with
      | false => simp [HTTPSender.Send]
      | true =>
        cases d with
        | transportErr => simp [HTTPSender.Send]
        | resp code =>
          by_cases h : 200 ≤ code ∧ code < 300 <;>
            simp [HTTPSender.Send, h]
  · cases m with
    | err => simp [HTTPSender.Send]
    | ok body =>
      cases nr with
      | false => simp [HTTPSender.Send]
      | true =>
        cases d with
        | transportErr => simp [HTTPSender.Send]
        | resp code =>
          by_cases h : 200 ≤ code ∧ code < 300 <;>
            simp [HTTPSender.Send, h]

/-- C8: the `/api/current_metrics` handler answers the explicit
no-data-yet JSON marker exactly when no report has been published, and
otherwise the latest consolidated report serialized as JSON. -/
theorem C8_current_metrics_handler_body :
    ∀ (latest : Option AgentReport) (r : AgentReport),
      (currentMetricsHandler latest = noDataResponse ↔ latest = none) ∧
      currentMetricsHandler (some r) = r.toJson := by
  intro latest r
  refine ⟨?_, rfl⟩
  cases latest with
  | none => simp [currentMetricsHandler]
  | some r0 =>
    simp only [currentMetricsHandler, AgentReport.toJson, noDataResponse]
    constructor
    · intro h
      injection h with h1
      injection h1 with h2 h3
      injection h2 with h4 h5
      exact absurd h4 (by decide)
    · intro h; exact Option.noConfusion h

/-- C9: `NginxCollector.Collect` body parsing is not total: a body of
exactly 3 newline-separated lines passes the fewer-than-3 guard but the
subsequent `lines[3]` access panics with an index out of range; a body
of fewer than 3 lines returns an error; and a numeric field that fails
to parse (not a nonempty digit run) silently contributes 0 instead of
an error. -/
theorem C9_nginx_parse_not_total :
    ∀ (body : String),
      ((goSplitLines body).length = 3 →
        parseStubStatus body = NginxOutcome.panicked) ∧
      ((goSplitLines body).length < 3 →
        ∃ msg, parseStubStatus body = NginxOutcome.err msg) ∧
      (∀ s : String, ¬ (s.toList ≠ [] ∧ s.toList.all Char.isDigit) →
        goParseUint64 s = 0) := by
  intro body
  refine ⟨?_, ?_, ?_⟩
  · intro h3
    have hnone : (goSplitLines body)[3]? = none := by
      rw [List.getElem?_eq_none_iff]; omega
    simp [parseStubStatus, h3, hnone]
  · intro hlt
    exact ⟨"salida de stub_status de Nginx inesperada",
      by simp [parseStubStatus, hlt]⟩
  · intro s hs
    unfold goParseUint64
    exact if_neg hs

/-- C9 witness: a stub_status body of exactly three lines makes the
parser panic, and a non-numeric field parses to 0. -/
theorem C9_nginx_parse_not_total_witness :
    (goSplitLines "a\nb\nc").length = 3 ∧
    parseStubStatus "a\nb\nc" = NginxOutcome.panicked ∧
    ¬ (("x7".toList ≠ []) ∧ "x7".toList.all Char.isDigit) ∧
    goParseUint64 "x7" = 0 :=
  ⟨by decide, (C9_nginx_parse_not_total "a\nb\nc").1 (by decide), by decide,
   (C9_nginx_parse_not_total "a\nb\nc").2.2 "x7" (by decide)⟩

/-- C3: code bug — on a write failure while CONNECTED, `SendLog` calls
`disconnect()` while still holding the non-reentrant mutex `mu`, so the
inner `s.mu.Lock()` blocks forever: the call never returns, the handle
is never closed nor cleared, and the sender never reaches DISCONNECTED,
contradicting the code's own comment that the connection is closed for
the reconnect loop to retry. -/
theorem C3_write_failure_selfdeadlock :
    sendLog false true { muOwner := none, conn := some 0 } =
      EmitOutcome.deadlocked { muOwner := some WsOwner.emitter, conn := some 0 } ∧
    (sendLog false true { muOwner := none, conn := some 0 }).cameBack = false ∧
    disconnect { muOwner := some WsOwner.emitter, conn := some 0 } =
      DisconnectOutcome.blocked := by
  refine ⟨rfl, rfl, rfl⟩

/-- C4 counterexample: `connect` holds the sender mutex across the
blocking dial, and a `SendLog` issued while DISCONNECTED during such an
in-flight dial does not return — it waits on the mutex — refuting the
claim that emit while DISCONNECTED returns immediately regardless of a
concurrent connection attempt. -/
theorem C4_emit_blocks_during_dial :
    connectPre true { muOwner := none, conn := none } =
      ({ muOwner := some WsOwner.dialer, conn := none }, true) ∧
    ({ muOwner := some WsOwner.dialer, conn := none : WsState }).conn = none ∧
    ¬ (∀ (mf wf : Bool) (s : WsState), s.conn = none →
        (sendLog mf wf s).cameBack = true) := by
  refine ⟨rfl, rfl, ?_⟩
  intro h
  have h0 := h false false { muOwner := some WsOwner.dialer, conn := none } rfl
  simp [sendLog, EmitOutcome.cameBack] at h0

/-- C4 amended: while DISCONNECTED with the handle mutex free, `SendLog`
returns at once, silently drops the line (nothing is written, no error
is surfaced to the caller, nothing is buffered) and leaves the sender
disconnected; but when a connection attempt holds the mutex (the dial
runs inside the locked region), the call first waits for the mutex. -/
theorem C4_emit_disconnected_drops :
    ∀ (mf wf : Bool) (s : WsState),
      s.muOwner = none → s.conn = none →
      sendLog mf wf s =
        EmitOutcome.returned false { muOwner := none, conn := none } := by
  intro mf wf s hm hc
  obtain ⟨mo, co⟩ := s
  cases hm
  cases hc
  rfl

/-- C4 witness: the amended statement at a concrete disconnected,
unlocked sender. -/
theorem C4_emit_disconnected_drops_witness :
    ({ muOwner := none, conn := none : WsState }).muOwner = none ∧
    ({ muOwner := none, conn := none : WsState }).conn = none ∧
    sendLog true false { muOwner := none, conn := none } =
      EmitOutcome.returned false { muOwner := none, conn := none } :=
  ⟨rfl, rfl,
    C4_emit_disconnected_drops true false { muOwner := none, conn := none }
      rfl rfl⟩

/-- C7: a collector name is among the spawned Collection Tasks exactly
when it is the always-present system collector or an enabled MySQL/Nginx
collector whose constructor succeeded — so a constructor failure only
removes that one adapter from the active set (not fatal), and one task
is still started for the system collector and every other successfully
constructed adapter. -/
theorem C7_active_set_after_ctor_failure :
    ∀ (cfg : Config) (env : MySQLEnv) (nm : String),
      nm ∈ spawnCollectorTasks (initActiveCollectors cfg env) ↔
        (nm = "system" ∨
         (∃ m c, cfg.mysql = some m ∧ m.enabled = true ∧
            NewMySQLCollector m env = Except.ok c ∧ nm = c.name) ∨
         (∃ n c, cfg.nginx = some n ∧ n.enabled = true ∧
            NewNginxCollector n = Except.ok c ∧ nm = c.name)) := by
  intro cfg env nm
  obtain ⟨aid, anm, iv, my, ng⟩ := cfg
  unfold initActiveCollectors spawnCollectorTasks
  cases my with
  | none =>
    cases ng with
    | none => simp [NewSystemCollector]
    | some n =>
      by_cases hne : n.enabled = true
      · cases hnc : NewNginxCollector n with
        | ok c => simp [NewSystemCollector, hne, hnc]
        | error e => simp [NewSystemCollector, hne, hnc]
      · simp [NewSystemCollector, hne]
  | some m =>
    cases ng with
    | none =>
      by_cases hme : m.enabled = true
      · cases hmc : NewMySQLCollector m env with
        | ok c => simp [NewSystemCollector, hme, hmc]
        | error e => simp [NewSystemCollector, hme, hmc]
      · simp [NewSystemCollector, hme]
    | some n =>
      by_cases hme : m.enabled = true <;> by_cases hne : n.enabled = true
      · cases hmc : NewMySQLCollector m env with
        | ok c =>
          cases hnc : NewNginxCollector n with
          | ok c2 => simp [NewSystemCollector, hme, hne, hmc, hnc]
          | error e2 => simp [NewSystemCollector, hme, hne, hmc, hnc]
        | error e =>
          cases hnc : NewNginxCollector n with
          | ok c2 => simp [NewSystemCollector, hme, hne, hmc, hnc]
          | error e2 => simp [NewSystemCollector, hme, hne, hmc, hnc]
      · cases hmc : NewMySQLCollector m env with
        | ok c => simp [NewSystemCollector, hme, hne, hmc]
        | error e => simp [NewSystemCollector, hme, hne, hmc]
      · cases hnc : NewNginxCollector n with
        | ok c2 => simp [NewSystemCollector, hme, hne, hnc]
        | error e2 => simp [NewSystemCollector, hme, hne, hnc]
      · simp [NewSystemCollector, hme, hne]

/-- C1 counterexample: the store to `currentCollectedData` and the
full-map read that builds the report are two separate critical sections
(`uiDataMutex.Lock` then, later, `uiDataMutex.RLock`), so the write and
the subsequent full-map read of one task are NOT atomic with respect to
the other task's write: the schedule write-A, write-B, read-A, read-B
produces a pair of snapshots that no serialization of the two tasks'
write-then-read blocks can produce. -/
theorem C1_write_read_not_atomic :
    ¬ (∀ (vA vB : MetricData) (zs : List MapOp),
        Interleave (taskOps 0 "system" vA) (taskOps 1 "mysql" vB) zs →
        execOps zs initExec =
            execOps (taskOps 0 "system" vA ++ taskOps 1 "mysql" vB) initExec ∨
        execOps zs initExec =
            execOps (taskOps 1 "mysql" vB ++ taskOps 0 "system" vA) initExec) := by
  intro h
  have hint : Interleave (taskOps 0 "system" (MetricData.systemM 0))
      (taskOps 1 "mysql" (MetricData.mysqlM 0))
      [MapOp.write "system" (MetricData.systemM 0),
       MapOp.write "mysql" (MetricData.mysqlM 0),
       MapOp.readSnap 0, MapOp.readSnap 1] :=
    Interleave.left (Interleave.right (Interleave.left
      (Interleave.right Interleave.nil)))
  rcases h _ _ _ hint with hAB | hBA
  · have h1 : (some (MetricData.mysqlM 0) : Option MetricData) = none :=
      congrArg (fun s => ((s.snaps 0).getD emptyMap) "mysql") hAB
    exact Option.noConfusion h1
  · have h1 : (some (MetricData.systemM 0) : Option MetricData) = none :=
      congrArg (fun s => ((s.snaps 1).getD emptyMap) "system") hBA
    exact Option.noConfusion h1

/-- C1 amended: each critical section is individually atomic under the
map lock, so in every schedule each task's report is built from a
consistent point-in-time copy of the whole map — the map contents after
some prefix of the schedule, always containing the task's own just
written sample — but because the write and the full-map read are two
separate lock regions, the other task's write may land between them
(the combined write-then-read is not atomic). -/
theorem C1_amended_point_in_time_snapshots :
    ∀ (vA vB : MetricData) (zs : List MapOp),
      Interleave (taskOps 0 "system" vA) (taskOps 1 "mysql" vB) zs →
      (∃ k, (execOps zs initExec).snaps 0 =
              some (execOps (zs.take k) initExec).data ∧
            (execOps (zs.take k) initExec).data "system" = some vA) ∧
      (∃ k, (execOps zs initExec).snaps 1 =
              some (execOps (zs.take k) initExec).data ∧
            (execOps (zs.take k) initExec).data "mysql" = some vB) := by
  intro vA vB zs h
  cases h with
  | left h1 =>
    cases h1 with
    | left h2 =>
      cases h2 with
      | right h3 =>
        cases h3 with
        | right h4 =>
          cases h4
          exact ⟨⟨1, rfl, rfl⟩, ⟨3, rfl, rfl⟩⟩
    | right h2 =>
      cases h2 with
      | left h3 =>
        cases h3 with
        | right h4 =>
          cases h4
          exact ⟨⟨2, rfl, rfl⟩, ⟨3, rfl, rfl⟩⟩
      | right h3 =>
        cases h3 with
        | left h4 =>
          cases h4
          exact ⟨⟨3, rfl, rfl⟩, ⟨2, rfl, rfl⟩⟩
  | right h1 =>
    cases h1 with
    | left h2 =>
      cases h2 with
      | left h3 =>
        cases h3 with
        | right h4 =>
          cases h4
          exact ⟨⟨2, rfl, rfl⟩, ⟨3, rfl, rfl⟩⟩
      | right h3 =>
        cases h3 with
        | left h4 =>
          cases h4
          exact ⟨⟨3, rfl, rfl⟩, ⟨2, rfl, rfl⟩⟩
    | right h2 =>
      cases h2 with
      | left h3 =>
        cases h3 with
        | left h4 =>
          cases h4
          exact ⟨⟨3, rfl, rfl⟩, ⟨1, rfl, rfl⟩⟩

/-- C1 witness: the amended statement at the concrete schedule
write-A, write-B, read-A, read-B. -/
theorem C1_amended_point_in_time_snapshots_witness :
    Interleave (taskOps 0 "system" (MetricData.systemM 7))
      (taskOps 1 "mysql" (MetricData.mysqlM 9))
      [MapOp.write "system" (MetricData.systemM 7),
       MapOp.write "mysql" (MetricData.mysqlM 9),
       MapOp.readSnap 0, MapOp.readSnap 1] ∧
    ((∃ k, (execOps [MapOp.write "system" (MetricData.systemM 7),
        MapOp.write "mysql" (MetricData.mysqlM 9),
        MapOp.readSnap 0, MapOp.readSnap 1] initExec).snaps 0 =
          some (execOps ([MapOp.write "system" (MetricData.systemM 7),
            MapOp.write "mysql" (MetricData.mysqlM 9),
            MapOp.readSnap 0, MapOp.readSnap 1].take k) initExec).data ∧
        (execOps ([MapOp.write "system" (MetricData.systemM 7),
            MapOp.write "mysql" (MetricData.mysqlM 9),
            MapOp.readSnap 0, MapOp.readSnap 1].take k) initExec).data
          "system" = some (MetricData.systemM 7)) ∧
     (∃ k, (execOps [MapOp.write "system" (MetricData.systemM 7),
        MapOp.write "mysql" (MetricData.mysqlM 9),
        MapOp.readSnap 0, MapOp.readSnap 1] initExec).snaps 1 =
          some (execOps ([MapOp.write "system" (MetricData.systemM 7),
            MapOp.write "mysql" (MetricData.mysqlM 9),
            MapOp.readSnap 0, MapOp.readSnap 1].take k) initExec).data ∧
        (execOps ([MapOp.write "system" (MetricData.systemM 7),
            MapOp.write "mysql" (MetricData.mysqlM 9),
            MapOp.readSnap 0, MapOp.readSnap 1].take k) initExec).data
          "mysql" = some (MetricData.mysqlM 9))) :=
  ⟨Interleave.left (Interleave.right (Interleave.left
      (Interleave.right Interleave.nil))),
   C1_amended_point_in_time_snapshots (MetricData.systemM 7)
     (MetricData.mysqlM 9) _
     (Interleave.left (Interleave.right (Interleave.left
        (Interleave.right Interleave.nil))))⟩

/-! ## Lemmas about the select-loop model -/

theorem taskRun_succ (p : TaskParams) (adv : Nat → SelChoice) (t : Nat) :
    taskRun p adv (t + 1) = taskStep p adv t (taskRun p adv t) := rfl

/-- Normal form of one scheduler step. -/
theorem taskStep_eq (p : TaskParams) (adv : Nat → SelChoice) (t : Nat)
    (s : TaskRun) :
    taskStep p adv t s =
      if s.exited = true then s
      else if (s.pending || tickFires p.period t) = true then
        if p.cancelAt ≤ t then
          match adv t with
          | SelChoice.tick =>
            { pending := false, exited := false, samples := t :: s.samples }
          | SelChoice.done =>
            { pending := true, exited := true, samples := s.samples }
        else { pending := false, exited := false, samples := t :: s.samples }
      else
        if p.cancelAt ≤ t then
          { pending := false, exited := true, samples := s.samples }
        else { pending := false, exited := false, samples := s.samples } := by
  unfold taskStep
  by_cases h1 : s.exited = true
  · simp [h1]
  · by_cases hp : (s.pending || tickFires p.period t) = true
    · by_cases hc : p.cancelAt ≤ t
      · simp only [h1, Bool.false_eq_true, if_false, hp, decide_eq_true hc,
          Bool.and_true, if_true]
        cases adv t <;> simp [hp, hc]
      · simp [h1, hp, hc]
    · by_cases hc : p.cancelAt ≤ t <;> simp [h1, hp, hc]

theorem taskStep_of_exited (p : TaskParams) (adv : Nat → SelChoice) (t : Nat)
    (s : TaskRun) (h : s.exited = true) : taskStep p adv t s = s := by
  rw [taskStep_eq, if_pos h]

/-- Once a task has returned it stays returned. -/
theorem taskRun_exited_le (p : TaskParams) (adv : Nat → SelChoice)
    {t u : Nat} (h : t ≤ u) (he : (taskRun p adv t).exited = true) :
    (taskRun p adv u).exited = true := by
  induction u with
  | zero =>
    have ht0 : t = 0 := Nat.le_zero.mp h
    rw [ht0] at he; exact he
  | succ u ih =>
    rcases Nat.lt_or_ge t (u + 1) with hlt | hge
    · have hu : (taskRun p adv u).exited = true := ih (by omega)
      rw [taskRun_succ, taskStep_of_exited _ _ _ _ hu]
      exact hu
    · have ht : t = u + 1 := by omega
      rw [ht] at he; exact he

theorem exited_false_step_back (p : TaskParams) (adv : Nat → SelChoice)
    (t : Nat) (h : (taskRun p adv (t + 1)).exited = false) :
    (taskRun p adv t).exited = false := by
  by_contra hc
  have hc' : (taskRun p adv t).exited = true := by
    revert hc; cases (taskRun p adv t).exited <;> simp
  have := taskRun_exited_le p adv (Nat.le_succ t) hc'
  rw [this] at h
  exact Bool.noConfusion h

/-- A step either leaves the sample list alone or records the step time. -/
theorem taskStep_samples (p : TaskParams) (adv : Nat → SelChoice) (t : Nat)
    (s : TaskRun) :
    (taskStep p adv t s).samples = s.samples ∨
    (taskStep p adv t s).samples = t :: s.samples := by
  rw [taskStep_eq]
  by_cases h1 : s.exited = true
  · simp [h1]
  · by_cases hp : (s.pending || tickFires p.period t) = true
    · by_cases hc : p.cancelAt ≤ t
      · simp only [h1, Bool.false_eq_true, if_false, hp, if_true, hc]
        cases adv t <;> simp [hc]
      · simp [h1, hp, hc]
    · by_cases hc : p.cancelAt ≤ t <;> simp [h1, hp, hc]

/-- Every recorded sample time is an already elapsed step time. -/
theorem taskRun_samples_lt (p : TaskParams) (adv : Nat → SelChoice) :
    ∀ t, ∀ u ∈ (taskRun p adv t).samples, u < t := by
  intro t
  induction t with
  | zero => intro u hu; simp [taskRun] at hu
  | succ t ih =>
    intro u hu
    rcases taskStep_samples p adv t (taskRun p adv t) with hs | hs
    · rw [taskRun_succ, hs] at hu
      exact Nat.lt_succ_of_lt (ih u hu)
    · rw [taskRun_succ, hs] at hu
      rcases List.mem_cons.mp hu with rfl | hu
      · omega
      · exact Nat.lt_succ_of_lt (ih u hu)

/-- After any step taken at or after the cancellation time, a task that
is still running holds no buffered tick (the sample branch consumed it,
and every other live branch leads to exit). -/
theorem pending_false_after_cancel (p : TaskParams) (adv : Nat → SelChoice)
    (t : Nat) (hc : p.cancelAt ≤ t)
    (hne : (taskRun p adv (t + 1)).exited = false) :
    (taskRun p adv (t + 1)).pending = false := by
  have hse : (taskRun p adv t).exited = false := exited_false_step_back p adv t hne
  rw [taskRun_succ, taskStep_eq] at hne ⊢
  simp only [hse, Bool.false_eq_true, if_false] at hne ⊢
  by_cases hp : ((taskRun p adv t).pending || tickFires p.period t) = true
  · simp only [hp, if_true, hc] at hne ⊢
    cases hadv : adv t <;> simp [hadv, hc] at hne ⊢
  · simp [hp, hc] at hne

/-- From one step past cancellation on, a task that is still running
just consumed a ticker fire at the step time (had the ticker been quiet,
only `ctx.Done()` was ready and the task would have exited). -/
theorem tick_fired_of_unexited (p : TaskParams) (adv : Nat → SelChoice)
    (t : Nat) (hc : p.cancelAt + 1 ≤ t)
    (hne : (taskRun p adv (t + 1)).exited = false) :
    tickFires p.period t = true := by
  obtain ⟨t0, rfl⟩ : ∃ t0, t = t0 + 1 := ⟨t - 1, by omega⟩
  have hsp : (taskRun p adv (t0 + 1)).pending = false :=
    pending_false_after_cancel p adv t0 (by omega)
      (exited_false_step_back p adv (t0 + 1) hne)
  have hse : (taskRun p adv (t0 + 1)).exited = false :=
    exited_false_step_back p adv (t0 + 1) hne
  rw [taskRun_succ, taskStep_eq] at hne
  simp only [hse, Bool.false_eq_true, if_false] at hne
  by_cases hp : ((taskRun p adv (t0 + 1)).pending ||
      tickFires p.period (t0 + 1)) = true
  · rw [hsp] at hp
    simpa using hp
  · have hcc : p.cancelAt ≤ t0 + 1 := by omega
    simp [hp, hcc] at hne

/-- A post-cancellation step that stays running records exactly the step
time as a new sample. -/
theorem sample_of_unexited_step (p : TaskParams) (adv : Nat → SelChoice)
    (t : Nat) (hc : p.cancelAt ≤ t)
    (hne : (taskRun p adv (t + 1)).exited = false) :
    (taskRun p adv (t + 1)).samples = t :: (taskRun p adv t).samples := by
  have hse : (taskRun p adv t).exited = false := exited_false_step_back p adv t hne
  rw [taskRun_succ, taskStep_eq] at hne ⊢
  simp only [hse, Bool.false_eq_true, if_false] at hne ⊢
  by_cases hp : ((taskRun p adv t).pending || tickFires p.period t) = true
  · simp only [hp, if_true, hc] at hne ⊢
    cases hadv : adv t <;> simp [hadv, hc] at hne ⊢
  · simp [hp, hc] at hne

/-- With a period of at least two scheduler steps, no step from two past
the cancellation time on can sample: the step before it would also have
had to consume a fire, and the ticker cannot fire on two consecutive
steps. -/
theorem no_sample_late (p : TaskParams) (adv : Nat → SelChoice) (t : Nat)
    (hP : 2 ≤ p.period) (hc : p.cancelAt + 2 ≤ t) :
    (taskRun p adv (t + 1)).samples = (taskRun p adv t).samples := by
  by_cases hse : (taskRun p adv t).exited = true
  · rw [taskRun_succ, taskStep_of_exited _ _ _ _ hse]
  · by_cases hres : (taskRun p adv (t + 1)).exited = false
    · exfalso
      have hf1 : tickFires p.period t = true :=
        tick_fired_of_unexited p adv t (by omega) hres
      have hf0 : tickFires p.period (t - 1) = true := by
        obtain ⟨t0, rfl⟩ : ∃ t0, t = t0 + 1 := ⟨t - 1, by omega⟩
        have hse' : (taskRun p adv (t0 + 1)).exited = false := by
          revert hse; cases (taskRun p adv (t0 + 1)).exited <;> simp
        have := tick_fired_of_unexited p adv t0 (by omega) hse'
        simpa using this
      simp only [tickFires, Bool.and_eq_true, decide_eq_true_eq] at hf0 hf1
      have hd1 : p.period ∣ t := Nat.dvd_of_mod_eq_zero hf1.2
      have hd0 : p.period ∣ (t - 1) := Nat.dvd_of_mod_eq_zero hf0.2
      have hsub : p.period ∣ (t - (t - 1)) := Nat.dvd_sub' hd1 hd0
      have h1 : t - (t - 1) = 1 := by omega
      rw [h1] at hsub
      have := Nat.le_of_dvd (by omega) hsub
      omega
    · have hres' : (taskRun p adv (t + 1)).exited = true := by
        revert hres; cases (taskRun p adv (t + 1)).exited <;> simp
      have hse' : (taskRun p adv t).exited = false := by
        revert hse; cases (taskRun p adv t).exited <;> simp
      rw [taskRun_succ, taskStep_eq] at hres' ⊢
      simp only [hse', Bool.false_eq_true, if_false] at hres' ⊢
      by_cases hp : ((taskRun p adv t).pending || tickFires p.period t) = true
      · have hcc : p.cancelAt ≤ t := by omega
        simp only [hp, if_true, hcc] at hres' ⊢
        cases hadv : adv t <;> simp [hadv, hcc] at hres' ⊢
      · by_cases hcc : p.cancelAt ≤ t <;> simp [hp, hcc] at hres' ⊢

/-- With a period of at least two steps, every sample a task ever takes
happens no later than one step past the cancellation time. -/
theorem samples_bounded_after_cancel (p : TaskParams) (adv : Nat → SelChoice)
    (hP : 2 ≤ p.period) :
    ∀ t, ∀ u ∈ (taskRun p adv t).samples, u ≤ p.cancelAt + 1 := by
  intro t
  induction t with
  | zero => intro u hu; simp [taskRun] at hu
  | succ t ih =>
    intro u hu
    by_cases hlate : p.cancelAt + 2 ≤ t
    · rw [no_sample_late p adv t hP hlate] at hu
      exact ih u hu
    · rcases taskStep_samples p adv t (taskRun p adv t) with hs | hs
      · rw [taskRun_succ, hs] at hu
        exact ih u hu
      · rw [taskRun_succ, hs] at hu
        rcases List.mem_cons.mp hu with rfl | hu
        · omega
        · exact ih u hu

/-- With a period of at least two steps, every task has returned by
three steps past the cancellation time, and stays returned. -/
theorem exited_after_cancel (p : TaskParams) (adv : Nat → SelChoice)
    (hP : 2 ≤ p.period) :
    ∀ t, p.cancelAt + 3 ≤ t → (taskRun p adv t).exited = true := by
  have hbase : (taskRun p adv (p.cancelAt + 3)).exited = true := by
    by_contra hne
    have hne' : (taskRun p adv (p.cancelAt + 3)).exited = false := by
      revert hne; cases (taskRun p adv (p.cancelAt + 3)).exited <;> simp
    have hsmp : (taskRun p adv (p.cancelAt + 2 + 1)).samples =
        (p.cancelAt + 2) :: (taskRun p adv (p.cancelAt + 2)).samples :=
      sample_of_unexited_step p adv (p.cancelAt + 2) (by omega) hne'
    have hmem : (p.cancelAt + 2) ∈ (taskRun p adv (p.cancelAt + 3)).samples := by
      have : p.cancelAt + 3 = p.cancelAt + 2 + 1 := by omega
      rw [this, hsmp]
      exact List.mem_cons_self _ _
    have := samples_bounded_after_cancel p adv hP (p.cancelAt + 3) _ hmem
    omega
  intro t ht
  exact taskRun_exited_le p adv ht hbase

/-- C5: with every adapter interval spanning at least two scheduler
steps, cancelling the shared context stops every Collection Task's
`Collect()` calls within one tick period of the cancellation (no sample
happens at or after `cancelAt + period`), all tasks have returned
shortly after, and `wg.Wait` returns only once every task has returned. -/
theorem C5_cancel_stops_all_tasks :
    ∀ (tasks : List (TaskParams × (Nat → SelChoice))),
      (∀ pa ∈ tasks, 2 ≤ pa.1.period) →
      (∀ pa ∈ tasks, ∀ t : Nat, ∀ u ∈ (taskRun pa.1 pa.2 t).samples,
          u < pa.1.cancelAt + pa.1.period) ∧
      (∀ t : Nat, (∀ pa ∈ tasks, pa.1.cancelAt + 3 ≤ t) →
          wgWaitReturned tasks t) ∧
      (∀ t : Nat, wgWaitReturned tasks t →
          ∀ pa ∈ tasks, (taskRun pa.1 pa.2 t).exited = true) := by
  intro tasks hper
  refine ⟨?_, ?_, ?_⟩
  · intro pa hpa t u hu
    have h2 := hper pa hpa
    have := samples_bounded_after_cancel pa.1 pa.2 h2 t u hu
    omega
  · intro t ht pa hpa
    exact exited_after_cancel pa.1 pa.2 (hper pa hpa) t (ht pa hpa)
  · intro t hw pa hpa
    exact hw pa hpa

/-- C5 witness: one task with a two-step period cancelled at time 5. -/
theorem C5_cancel_stops_all_tasks_witness :
    (∀ pa ∈ [(({ period := 2, cancelAt := 5 } : TaskParams),
        (fun _ : Nat => SelChoice.tick))], 2 ≤ pa.1.period) ∧
    ((∀ pa ∈ [(({ period := 2, cancelAt := 5 } : TaskParams),
        (fun _ : Nat => SelChoice.tick))],
        ∀ t : Nat, ∀ u ∈ (taskRun pa.1 pa.2 t).samples,
          u < pa.1.cancelAt + pa.1.period) ∧
     (∀ t : Nat, (∀ pa ∈ [(({ period := 2, cancelAt := 5 } : TaskParams),
        (fun _ : Nat => SelChoice.tick))], pa.1.cancelAt + 3 ≤ t) →
          wgWaitReturned [(({ period := 2, cancelAt := 5 } : TaskParams),
            (fun _ : Nat => SelChoice.tick))] t) ∧
     (∀ t : Nat, wgWaitReturned [(({ period := 2, cancelAt := 5 } : TaskParams),
          (fun _ : Nat => SelChoice.tick))] t →
        ∀ pa ∈ [(({ period := 2, cancelAt := 5 } : TaskParams),
          (fun _ : Nat => SelChoice.tick))],
          (taskRun pa.1 pa.2 t).exited = true)) :=
  ⟨by intro pa hpa; rcases List.mem_singleton.mp hpa with rfl; decide,
   C5_cancel_stops_all_tasks _
     (by intro pa hpa; rcases List.mem_singleton.mp hpa with rfl; decide)⟩

/-- Ticker fires only from one full period on. -/
theorem tickFires_ge (period t : Nat) (h : tickFires period t = true) :
    period ≤ t := by
  simp only [tickFires, Bool.and_eq_true, decide_eq_true_eq] at h
  exact Nat.le_of_dvd h.1 (Nat.dvd_of_mod_eq_zero h.2)

/-- Invariant: all samples happen at or after one full period, and a
buffered tick implies a fire already happened. -/
theorem taskRun_first_fire_invariant (p : TaskParams) (adv : Nat → SelChoice) :
    ∀ t, (∀ u ∈ (taskRun p adv t).samples, p.period ≤ u) ∧
      ((taskRun p adv t).pending = true → p.period ≤ t) := by
  intro t
  induction t with
  | zero =>
    refine ⟨?_, ?_⟩
    · intro u hu; simp [taskRun] at hu
    · intro h; simp [taskRun] at h
  | succ t ih =>
    obtain ⟨ihs, ihp⟩ := ih
    have heff : ((taskRun p adv t).pending || tickFires p.period t) = true →
        p.period ≤ t := by
      intro h
      rcases (Bool.or_eq_true _ _).mp h with h | h
      · exact ihp h
      · exact tickFires_ge p.period t h
    constructor
    · intro u hu
      rw [taskRun_succ, taskStep_eq] at hu
      by_cases h1 : (taskRun p adv t).exited = true
      · rw [if_pos h1] at hu; exact ihs u hu
      · simp only [h1, Bool.false_eq_true, if_false] at hu
        by_cases hp : ((taskRun p adv t).pending || tickFires p.period t) = true
        · simp only [hp, if_true] at hu
          by_cases hc : p.cancelAt ≤ t
          · simp only [hc, if_true] at hu
            cases hadv : adv t <;> simp [hadv] at hu
            · rcases hu with rfl | hu
              · exact heff hp
              · exact ihs u hu
            · exact ihs u hu
          · simp only [hc, if_false] at hu
            simp at hu
            rcases hu with rfl | hu
            · exact heff hp
            · exact ihs u hu
        · by_cases hc : p.cancelAt ≤ t <;> simp [hp, hc] at hu <;>
            exact ihs u hu
    · intro hpend
      rw [taskRun_succ, taskStep_eq] at hpend
      by_cases h1 : (taskRun p adv t).exited = true
      · rw [if_pos h1] at hpend
        exact Nat.le_succ_of_le (ihp hpend)
      · simp only [h1, Bool.false_eq_true, if_false] at hpend
        by_cases hp : ((taskRun p adv t).pending || tickFires p.period t) = true
        · exact Nat.le_succ_of_le (heff hp)
        · by_cases hc : p.cancelAt ≤ t <;> simp [hp, hc] at hpend

/-- C10: `time.NewTicker` fires first only one full interval after the
Collection Task starts, so no `Collect()` call happens before
`t = interval` — in particular the sample list is still empty at every
time up to one full interval — and with no published report the local
read endpoint still answers the no-data-yet marker. -/
theorem C10_no_collection_before_first_interval :
    ∀ (p : TaskParams) (adv : Nat → SelChoice) (t : Nat),
      (∀ u ∈ (taskRun p adv t).samples, p.period ≤ u) ∧
      (t ≤ p.period → (taskRun p adv t).samples = []) ∧
      currentMetricsHandler none = noDataResponse := by
  intro p adv t
  refine ⟨(taskRun_first_fire_invariant p adv t).1, ?_, rfl⟩
  intro hle
  rw [List.eq_nil_iff_forall_not_mem]
  intro u hu
  have h1 := (taskRun_first_fire_invariant p adv t).1 u hu
  have h2 := taskRun_samples_lt p adv t u hu
  omega

/-- C10 witness: a task with period 3, observed at time 3, has sampled
nothing yet. -/
theorem C10_no_collection_before_first_interval_witness :
    ((3 : Nat) ≤ (({ period := 3, cancelAt := 9 } : TaskParams)).period) ∧
    (taskRun { period := 3, cancelAt := 9 }
        (fun _ : Nat => SelChoice.tick) 3).samples = [] :=
  ⟨by decide,
   (C10_no_collection_before_first_interval { period := 3, cancelAt := 9 }
      (fun _ : Nat => SelChoice.tick) 3).2.1 (by decide)⟩
